import Mathlib

/-!
Shallow embedding of the order-lifecycle and payment-settlement core of the
`fas-back` storefront backend (TypeScript/Express/Mongoose), for checking the
frozen claims C1..C10 against the source.

Conventions of the embedding:
* JavaScript `undefined` is `Option.none`; JS truthiness of strings and
  numbers is made explicit (`truthyStr`, `truthyInt`): `""` and `0` are falsy.
* The Mongo collection of orders is a `List OrderDoc`; document ids are
  opaque strings (ObjectId casting is not modelled).
* Mongoose semantics embedded for `findByIdAndUpdate` (its defaults, which
  the routes rely on): update validators are NOT run, so a `status` value
  outside the schema enum is stored as given; strict mode IS on, so an update
  path that is not a schema path of `models/Order.ts` (for example
  `payment.status`, `payment.method`, `payment.intentId`, `payment.paidAt` -
  the schema declares top-level `paymentStatus` / `paymentMethod` and no
  intent-id or paidAt path at all) is silently stripped from the update.
* `Order.create` (used by `createOrder`) DOES run schema validation:
  `delivery` is a required path and each item needs `qty >= 1`.
* `crypto.createHmac("sha256", secret).update(raw).digest("hex")` is an
  external library primitive; it is a function parameter `hmacHex` of the
  webhook definitions.  `crypto.timingSafeEqual` throws when the two buffers
  have different lengths; that is modelled with `Except`.
* Timestamps (`createdAt`/`updatedAt`) and display-only strings (timeline
  titles and descriptions, ip/user-agent of audit entries) are not modelled;
  no claim mentions them.
-/

/-- JS truthiness of an optional string (`undefined` and `""` are falsy). -/
def truthyStr : Option String → Bool
  | none => false
  | some s => !(s == "")

/-- JS truthiness of an optional number (`undefined` and `0` are falsy). -/
def truthyInt : Option Int → Bool
  | none => false
  | some n => !(n == 0)

/-- Address subdocument (models/Order.ts `IAddress`). -/
structure Address where
  fullName : String
  phone : String
  country : String
  city : String
  street : String
  zip : String
  isDefault : Bool
deriving DecidableEq, Repr

/-- Cart item subdocument (models/Order.ts `ICartItem`); `qty` has a `min: 1`
schema validator. -/
structure CartItem where
  productId : String
  title : String
  slug : String
  price : Int
  qty : Int
  color : Option String
  size : Option String
  image : String
deriving DecidableEq, Repr

/-- Totals subdocument (models/Order.ts `ITotals`). -/
structure Totals where
  subtotal : Int
  shipping : Int
  tax : Int
  total : Int
deriving DecidableEq, Repr

/-- Delivery subdocument (models/Order.ts `IDelivery`); coordinates are kept
abstract as an optional pair. -/
structure Delivery where
  coordinates : Option (Int × Int)
  address : Address
  estimatedTime : Option Int
  courierId : Option String
  courierName : Option String
  courierPhone : Option String
  instructions : Option String
deriving DecidableEq, Repr

/-- An order document as stored (models/Order.ts `IOrder`).  `status` and
`paymentStatus` are plain strings: the schema declares enums but update
operations bypass them (no update validators), which is exactly what claims
C1/C2/C10 are about. -/
structure OrderDoc where
  id : String
  userId : String
  items : List CartItem
  totals : Totals
  status : String
  address : Address
  delivery : Option Delivery
  paymentStatus : String
  paymentMethod : Option String
  notes : Option String
deriving DecidableEq, Repr

/-- The `status` enum declared by the Order schema (models/Order.ts). -/
def orderStatusEnum : List String :=
  ["pending", "confirmed", "preparing", "ready_for_delivery", "in_transit",
   "delivered", "cancelled"]

/-- The Mongo orders collection. -/
abbrev OrderStore := List OrderDoc

/-- Mongoose `Order.findById` on the collection. -/
def findById (store : OrderStore) (oid : String) : Option OrderDoc :=
  store.find? (fun o => o.id == oid)

/-- One `path: value` assignment of an update document, applied to an order
under mongoose strict mode: only string-valued schema paths of
`models/Order.ts` that the embedded routes write are assignable; any other
path - in particular the dotted `payment.*` paths written by
`routes/payments.ts`, which are NOT schema paths - is silently stripped. -/
def setOrderPath (o : OrderDoc) (path v : String) : OrderDoc :=
  if path == "status" then { o with status := v }
  else if path == "paymentStatus" then { o with paymentStatus := v }
  else if path == "paymentMethod" then { o with paymentMethod := some v }
  else if path == "notes" then { o with notes := some v }
  else o

/-- Apply a whole update document (no validators are run). -/
def applyUpdate (o : OrderDoc) (upd : List (String × String)) : OrderDoc :=
  upd.foldl (fun acc pv => setOrderPath acc pv.1 pv.2) o

/-- The collection after updating the document with the given id. -/
def updStore (store : OrderStore) (oid : String) (upd : List (String × String)) :
    OrderStore :=
  store.map (fun x => if x.id == oid then applyUpdate x upd else x)

/-- Mongoose `Order.findByIdAndUpdate(oid, upd, {new:true})`: `none` and an
unchanged collection when no document has the id, otherwise the updated
document and collection. -/
def findByIdAndUpdate (store : OrderStore) (oid : String)
    (upd : List (String × String)) : Option OrderDoc × OrderStore :=
  match store.find? (fun o => o.id == oid) with
  | none => (none, store)
  | some o => (some (applyUpdate o upd), updStore store oid upd)

/-! routes/orders.ts (`createOrder`, `updateOrderStatus`). -/

/-- The document `createOrder` hands to `Order.create`: the route passes only
`{userId, items, totals, address}` - never `delivery`, although the schema
requires it. -/
structure OrderCreateDoc where
  userId : String
  items : List CartItem
  totals : Totals
  address : Address
  delivery : Option Delivery
deriving DecidableEq, Repr

/-- Schema validation run by `Order.create` (models/Order.ts): `delivery` is a
required path, and every item's `qty` has a `min: 1` validator.  The other
required paths (`userId`, `items`, `totals`, `address`, and the required
string subfields) are structurally present in the typed embedding.  An empty
`items` array passes `required` in mongoose. -/
def validOrderCreate (doc : OrderCreateDoc) : Bool :=
  doc.delivery.isSome && doc.items.all (fun it => 1 ≤ it.qty)

/-- POST /api/orders handler `createOrder` (routes/orders.ts).  Returns
(http status, response order, collection after).  The body check is JS
truthiness: an absent field gives 400; an empty items ARRAY is truthy and
passes.  `Order.create` failure (a `ValidationError`) is swallowed by the
handler's catch-all, which answers 500, not 400.  On success the document
gets schema defaults `status = "pending"`, `paymentStatus = "pending"`. -/
def createOrder (store : OrderStore) (newId userId : String)
    (items? : Option (List CartItem)) (totals? : Option Totals)
    (address? : Option Address) : Nat × Option OrderDoc × OrderStore :=
  match items?, totals?, address? with
  | some items, some totals, some address =>
    let doc : OrderCreateDoc :=
      { userId := userId, items := items, totals := totals, address := address,
        delivery := none }
    if validOrderCreate doc then
      let o : OrderDoc :=
        { id := newId, userId := userId, items := items, totals := totals,
          status := "pending", address := address, delivery := doc.delivery,
          paymentStatus := "pending", paymentMethod := none, notes := none }
      (201, some o, store ++ [o])
    else (500, none, store)
  | _, _, _ => (400, none, store)

/-- The hardcoded status allowlist of `updateOrderStatus` (routes/orders.ts):
note it is NOT the Order schema enum - `processing` is extra, while
`confirmed`, `preparing` and `ready_for_delivery` are missing. -/
def okStatuses : List String :=
  ["pending", "processing", "in_transit", "delivered", "cancelled"]

/-- PATCH /api/orders/:orderId/status handler `updateOrderStatus`
(routes/orders.ts).  Returns (http status, response order, collection
after). -/
def updateOrderStatus (store : OrderStore) (orderId : String)
    (status? : Option String) : Nat × Option OrderDoc × OrderStore :=
  match status? with
  | none => (400, none, store)
  | some s =>
    if !(okStatuses.contains s) then (400, none, store)
    else
      match findByIdAndUpdate store orderId [("status", s)] with
      | (none, _) => (404, none, store)
      | (some o2, store2) => (200, some o2, store2)

/-! routes/payments.ts (`idempotencyKey`, `verifySignature`, `createPayme`,
`paymeWebhook`). -/

/-- `idempotencyKey(id?)`: the given id when truthy, else the fresh random
hex string (`crypto.randomBytes(8).toString("hex")`, 16 hex characters),
which is the `rand` parameter of the embedding. -/
def idempotencyKey (id? : Option String) (rand : String) : String :=
  if truthyStr id? then id?.getD ("") else rand

/-- Request body of the payment-create endpoints. -/
structure PayCreateBody where
  orderId : Option String
  amount : Option Int
deriving DecidableEq, Repr

/-- Response of the payment-create endpoints. -/
inductive PayResp where
  | err (msg : String)
  | intent (intentId redirectUrl : String)
deriving DecidableEq, Repr

/-- POST /api/payments/payme/create handler `createPayme`
(routes/payments.ts).  Returns (http status, response, collection after).
The update document uses the dotted paths `payment.method`,
`payment.status`, `payment.intentId`, none of which is a schema path of
`models/Order.ts`. -/
def createPayme (store : OrderStore) (body : PayCreateBody) (rand : String)
    (clientUrl : String) : Nat × PayResp × OrderStore :=
  if !(truthyStr body.orderId) || !(truthyInt body.amount) then
    (400, .err ("orderId and amount required"), store)
  else
    let oid := body.orderId.getD ("")
    let intentId := idempotencyKey none rand
    let (_, store2) := findByIdAndUpdate store oid
      [("payment.method", "payme"), ("payment.status", "pending"),
       ("payment.intentId", intentId)]
    (200, .intent intentId
      (clientUrl ++ "/payment/success?orderId=" ++ oid ++ "&intentId=" ++ intentId),
      store2)

/-- `crypto.timingSafeEqual` over the two hex strings: throws (models the
`RangeError`) when the byte lengths differ, otherwise constant-time
equality. -/
def timingSafeEqual (a b : String) : Except String Bool :=
  if a.length == b.length then .ok (a == b) else .error ("length mismatch")

/-- `verifySignature(raw, signature, secret)` (routes/payments.ts): false
when header or secret is absent or empty (fail closed), otherwise
`timingSafeEqual` of the computed HMAC hex digest against the header -
which THROWS when the supplied header's length differs from the digest's.
`hmacHex secret raw` stands for the node `crypto` HMAC-SHA256 hex digest. -/
def verifySignature (hmacHex : String → String → String) (raw : String)
    (signature secret : Option String) : Except String Bool :=
  if !(truthyStr signature) || !(truthyStr secret) then .ok false
  else timingSafeEqual (hmacHex (secret.getD ("")) raw) (signature.getD (""))

/-- Webhook request body (`intentId`, `orderId`, `amount`). -/
structure WebhookPayload where
  intentId : Option String
  orderId : Option String
  amount : Option Int
deriving DecidableEq, Repr

/-- Stands for `JSON.stringify(req.body || {})`: the exact raw bytes the
signature is computed over.  Identical payloads give identical raw bodies. -/
def rawOf (p : WebhookPayload) : String :=
  "intentId=" ++ p.intentId.getD ("") ++ ";orderId=" ++ p.orderId.getD ("")
    ++ ";amount=" ++ (p.amount.map toString).getD ("")

/-- Outcome of a webhook invocation: `thrown` is an exception escaping the
async handler (no HTTP response is produced by it), the others are the
handler's JSON responses. -/
inductive WebhookResp where
  | thrown
  | unauthorized (msg : String)
  | badRequest (msg : String)
  | ok
deriving DecidableEq, Repr

/-- The HTTP status a webhook outcome answers with (`none` when the handler
threw and produced no response). -/
def WebhookResp.code : WebhookResp → Option Nat
  | .thrown => none
  | .unauthorized _ => some 401
  | .badRequest _ => some 400
  | .ok => some 200

/-- The update document the webhooks apply on settlement: `status` is set to
the literal `"paid"` (not an Order schema enum value); the two `payment.*`
paths are not schema paths and are stripped by strict mode. -/
def paidUpd (now : String) : List (String × String) :=
  [("status", "paid"), ("payment.status", "paid"), ("payment.paidAt", now)]

/-- POST /api/payments/payme/webhook handler `paymeWebhook`
(routes/payments.ts).  Returns (outcome, collection after).  The `amount`
field is never reconciled (source TODO), and a missing order id match leaves
the collection unchanged but still answers `{ok:true}`. -/
def paymeWebhook (hmacHex : String → String → String) (secret? : Option String)
    (sig? : Option String) (body : WebhookPayload) (now : String)
    (store : OrderStore) : WebhookResp × OrderStore :=
  let raw := rawOf body
  match verifySignature hmacHex raw sig? secret? with
  | .error _ => (.thrown, store)
  | .ok false => (.unauthorized ("invalid"), store)
  | .ok true =>
    if !(truthyStr body.intentId) || !(truthyStr body.orderId) then
      (.badRequest ("invalid payload"), store)
    else
      let (_, store2) :=
        findByIdAndUpdate store (body.orderId.getD ("")) (paidUpd now)
      (.ok, store2)

/-- The collection after `n` consecutive deliveries of the same webhook
request (at-least-once redelivery). -/
def replayWebhook (hmacHex : String → String → String) (secret? : Option String)
    (sig? : Option String) (body : WebhookPayload) (now : String) :
    Nat → OrderStore → OrderStore
  | 0, store => store
  | n + 1, store =>
    replayWebhook hmacHex secret? sig? body now n
      (paymeWebhook hmacHex secret? sig? body now store).2

/-! routes/auth.ts (`requireAuth`) and middleware/permissions.ts
(`authenticateToken`). -/

/-- The payload a verified bearer token decodes to (`{id, role}` as signed by
login/signup). -/
structure JwtClaims where
  id : String
  role : String
deriving DecidableEq, Repr

/-- A user document in the users collection (models/User.ts as read by
middleware/permissions.ts). -/
structure DbUser where
  id : String
  name : String
  phone : String
  role : String
  isActive : Bool
deriving DecidableEq, Repr

deriving instance DecidableEq for Except

/-- The bearer token of an authorization header as `requireAuth` slices it:
the part after the `Bearer` prefix when the header starts with it, else
nothing (`null` and `""` merge as JS-falsy). -/
def bearerToken (auth : String) : String :=
  if ("Bearer ").data.isPrefixOf auth.data then String.mk (auth.data.drop 7)
  else ""

/-- `requireAuth` (routes/auth.ts): extracts the bearer token and verifies it
(`jwtVerify` stands for `jwt.verify`, `none` meaning the library threw); it
consults NO persistent state - the decoded token becomes `req.user`
unchecked.  `.error n` is an HTTP n rejection, `.ok d` is `next()` with
`req.user = d`. -/
def requireAuth (jwtVerify : String → Option JwtClaims)
    (authHeader : Option String) : Except Nat JwtClaims :=
  let token := bearerToken (authHeader.getD (""))
  if token == "" then .error 401
  else
    match jwtVerify token with
    | some d => .ok d
    | none => .error 401

/-- What `authenticateToken` puts on `req.user` after its re-check. -/
structure ReqUser where
  id : String
  role : String
  name : String
  phone : String
deriving DecidableEq, Repr

/-- The token `authenticateToken` extracts: the second space-separated part
of the authorization header; JS gives `undefined`/`""` (both falsy) when the
header or the part is absent. -/
def splitSpaces : List Char → List (List Char)
  | [] => [[]]
  | c :: cs =>
    match splitSpaces cs, c == ' ' with
    | r, true => [] :: r
    | [], false => [[c]]
    | h :: t, false => (c :: h) :: t

/-- JS `s.split(" ")` (middleware/permissions.ts token extraction). -/
def jsSplitSpace (s : String) : List String :=
  (splitSpaces s.data).map (fun l => String.mk l)

def atokenOf (authHeader : Option String) : String :=
  match authHeader with
  | none => ""
  | some h => if h == "" then "" else (jsSplitSpace h).getD 1 ("")

/-- `authenticateToken` (middleware/permissions.ts): verifies the token, then
RE-CHECKS the referenced account against the users collection and rejects
with 401 when the account is missing or not active.  A token the library
rejects gets 403 (the handler's catch). -/
def authenticateToken (jwtVerify : String → Option JwtClaims)
    (users : List DbUser) (authHeader : Option String) : Except Nat ReqUser :=
  let token := atokenOf authHeader
  if token == "" then .error 401
  else
    match jwtVerify token with
    | none => .error 403
    | some d =>
      match users.find? (fun u => u.id == d.id) with
      | none => .error 401
      | some u =>
        if !u.isActive then .error 401
        else .ok { id := u.id, role := u.role, name := u.name, phone := u.phone }

/-! routes/admin.ts (`createUser`, `deleteUser`).  These handlers run behind
`requireAuth`, so `req.user` is the decoded token (`JwtClaims`). -/

/-- DELETE /api/admin/users/:id handler `deleteUser` (routes/admin.ts).
Returns (http status, users collection after).  Check order as in source:
404 on missing target, then 403 for an admin target and a non-admin caller,
then 400 on self-deletion, then the delete. -/
def deleteUser (users : List DbUser) (caller : JwtClaims) (targetId : String) :
    Nat × List DbUser :=
  match users.find? (fun u => u.id == targetId) with
  | none => (404, users)
  | some u =>
    if u.role == "admin" && !(caller.role == "admin") then (403, users)
    else if u.id == caller.id then (400, users)
    else (200, users.filter (fun v => !(v.id == targetId)))

/-- POST /api/admin/users handler `createUser` (routes/admin.ts).  Returns
(http status, users collection after).  Role checks come first (403), then
the duplicate-phone check (400), then the insert (201); `newId` stands for
the generated ObjectId and `hashed` for the bcrypt hash. -/
def createUser (users : List DbUser) (caller : JwtClaims)
    (name phone _hashed role : String) (newId : String) : Nat × List DbUser :=
  if role == "admin" && !(caller.role == "admin") then (403, users)
  else if role == "moderator" && !(caller.role == "admin") then (403, users)
  else
    match users.find? (fun u => u.phone == phone) with
    | some _ => (400, users)
    | none =>
      (201, users ++ [{ id := newId, name := name, phone := phone, role := role,
                        isActive := true }])

/-! middleware/auditLogger.ts (`auditLogger`, `sanitizeBody`). -/

/-- A JSON-ish value of a request-body field, with its JS truthiness. -/
inductive JsVal where
  | str (s : String)
  | num (n : Int)
  | boolean (b : Bool)
  | null
deriving DecidableEq, Repr

/-- JS truthiness of a body field value. -/
def JsVal.truthy : JsVal → Bool
  | .str s => !(s == "")
  | .num n => !(n == 0)
  | .boolean b => b
  | .null => false

/-- The `sensitiveFields` list of `sanitizeBody` (case-sensitive). -/
def sensitiveFields : List String :=
  ["password", "confirmPassword", "oldPassword", "newPassword", "token", "secret"]

/-- `sanitizeBody` (middleware/auditLogger.ts): a request body is a
unique-keyed field map; a sensitive-named field is overwritten with the
redaction marker ONLY when its current value is truthy
(`if (sanitized[field])`). -/
def sanitizeBody (body : List (String × JsVal)) : List (String × JsVal) :=
  body.map (fun kv =>
    if sensitiveFields.contains kv.1 && kv.2.truthy then
      (kv.1, JsVal.str ("[REDACTED]"))
    else kv)

/-- `req.user` as the audit middleware reads it (`name`/`role` may be absent
on a bare token payload and default to Unknown/unknown). -/
structure AuditUser where
  id : String
  name : Option String
  role : Option String
deriving DecidableEq, Repr

/-- The request detail subdocument of an audit entry (ip, user-agent, params
and query are not modelled). -/
structure AuditDetails where
  method : String
  url : String
  body : List (String × JsVal)
  responseTime : Int
  statusCode : Nat
deriving DecidableEq, Repr

/-- One persisted audit log entry (models/AuditLog.ts `logAction` document). -/
structure AuditEntry where
  userId : String
  userName : String
  userRole : String
  action : String
  resource : String
  resourceId : Option String
  details : AuditDetails
  success : Bool
  errorMessage : Option String
deriving DecidableEq, Repr

/-- The `res.json` wrapper installed by `auditLogger(resource, action?)`
(middleware/auditLogger.ts), at the moment the handler sends its one JSON
response: when `req.user && req.user.id` is truthy, exactly one entry is
appended to the log (the `logAction` write; its failures are absorbed and
cannot change the count seen by a successful store).  `paramsId` stands for
`req.params.id || req.params.userId || req.params.productId || req.body.id`,
`respMsg` for `body.message`. -/
def auditLoggerOnJson (resource : String) (action? : Option String)
    (user? : Option AuditUser) (method url : String) (paramsId : Option String)
    (body : List (String × JsVal)) (statusCode : Nat) (respMsg : Option String)
    (responseTime : Int) (log : List AuditEntry) : List AuditEntry :=
  match user? with
  | none => log
  | some u =>
    if u.id == "" then log
    else
      log ++ [{
        userId := u.id,
        userName := u.name.getD ("Unknown"),
        userRole := u.role.getD ("unknown"),
        action := if truthyStr action? then action?.getD ("") else method.toLower,
        resource := resource,
        resourceId := paramsId,
        details := { method := method, url := url, body := sanitizeBody body,
                     responseTime := responseTime, statusCode := statusCode },
        success := statusCode < 400,
        errorMessage :=
          if 400 ≤ statusCode then some (respMsg.getD ("Unknown error"))
          else none }]

/-! Delivery tracker `trackOrder` (routes/delivery.ts, src/unnamed/part_010). -/

/-- One timeline entry (status and completed flag; the display title,
description and timestamp fields are not modelled). -/
structure TimelineEntry where
  status : String
  completed : Bool
deriving DecidableEq, Repr

/-- The six delivery stages in their total order. -/
def deliveryStages : List String :=
  ["pending", "confirmed", "preparing", "ready_for_delivery", "in_transit",
   "delivered"]

/-- The timeline `trackOrder` builds from the order's current status: the
`pending` entry is always pushed, each later stage is pushed (completed) when
the current status is in that stage's suffix list - a pure function of the
current status only. -/
def buildTimeline (status : String) : List TimelineEntry :=
  [⟨"pending", true⟩]
  ++ (if ["confirmed", "preparing", "ready_for_delivery", "in_transit",
          "delivered"].contains status then [⟨"confirmed", true⟩] else [])
  ++ (if ["preparing", "ready_for_delivery", "in_transit",
          "delivered"].contains status then [⟨"preparing", true⟩] else [])
  ++ (if ["ready_for_delivery", "in_transit",
          "delivered"].contains status then [⟨"ready_for_delivery", true⟩] else [])
  ++ (if ["in_transit", "delivered"].contains status then
        [⟨"in_transit", true⟩] else [])
  ++ (if status == "delivered" then [⟨"delivered", true⟩] else [])

/-- The courier part of the tracking response: present when
`order.delivery.courierId` is truthy. -/
def courierView (o : OrderDoc) : Option (Option String × Option String) :=
  if truthyStr (o.delivery.bind Delivery.courierId) then
    some ((o.delivery.bind Delivery.courierName),
          (o.delivery.bind Delivery.courierPhone))
  else none

/-- GET /api/delivery/track/:orderId handler `trackOrder`: 404 (`none`) when
the order is missing, otherwise the order, the freshly built timeline and the
courier view. -/
def trackOrder (store : OrderStore) (orderId : String) :
    Option (OrderDoc × List TimelineEntry × Option (Option String × Option String)) :=
  (findById store orderId).map (fun o => (o, buildTimeline o.status, courierView o))

/-! Concrete fixtures used by witnesses and counterexamples. -/

/-- Address of the spec's Scenario A. -/
def addr0 : Address :=
  { fullName := "John", phone := "123", country := "UZ", city := "Tashkent",
    street := "Main", zip := "100000", isDefault := false }

/-- Cart item of the spec's Scenario A. -/
def item0 : CartItem :=
  { productId := "p1", title := "Tee", slug := "tee", price := 10, qty := 1,
    color := none, size := none, image := "img" }

/-- Totals of the spec's Scenario A. -/
def totals0 : Totals := { subtotal := 10, shipping := 0, tax := 0, total := 10 }

/-- An existing order awaiting payment. -/
def order0 : OrderDoc :=
  { id := "o1", userId := "u1", items := [item0], totals := totals0,
    status := "pending", address := addr0, delivery := none,
    paymentStatus := "pending", paymentMethod := none, notes := none }

/-- A one-order collection. -/
def store0 : OrderStore := [order0]

/-- A webhook payload (the spec's Scenario C). -/
def payload0 : WebhookPayload :=
  { intentId := some "i1", orderId := some "o1", amount := some 1000 }

/-- A stand-in HMAC-SHA256 hex function for concrete instances: every digest
is the 64-character hex string of a's, matching the digest length of the real
primitive. -/
def hmacConst : String → String → String :=
  fun _ _ => String.mk (List.replicate 64 'a')

/-- A 64-character wrong signature (same length as any digest, all b's). -/
def wrongSig64 : String := String.mk (List.replicate 64 'b')

/-- A stand-in `jwt.verify` for concrete instances: accepts the one token
string and decodes it to user u1 with role user. -/
def jwtVerify0 : String → Option JwtClaims :=
  fun t => if t == "tok" then some { id := "u1", role := "user" } else none

/-- A stored user kept for instances: account u1 exists but is deactivated. -/
def userInactive : DbUser :=
  { id := "u1", name := "U", phone := "p1", role := "user", isActive := false }

/-- Audit identity used by concrete instances. -/
def auditUser0 : AuditUser :=
  { id := "u1", name := some ("Ann"), role := some ("admin") }

/-- The order o1 as the webhook settlement leaves it: the `status` field holds
the literal `"paid"` while `paymentStatus` is still `"pending"`. -/
def orderPaid : OrderDoc := { order0 with status := "paid" }

/-- The collection after a settled webhook on `store0`. -/
def storePaid : OrderStore := [orderPaid]

/-- Order o1 having reached the preparing stage. -/
def orderPrep : OrderDoc := { order0 with status := "preparing" }

/-- A collection holding `orderPrep`. -/
def storePrep : OrderStore := [orderPrep]

/-- Order o1 after cancellation. -/
def orderCanc : OrderDoc := { order0 with status := "cancelled" }

/-- A collection holding `orderCanc`. -/
def storeCanc : OrderStore := [orderCanc]

/-- An admin account. -/
def adminA : DbUser :=
  { id := "a1", name := "Alice", phone := "pa", role := "admin", isActive := true }

/-- A second admin account. -/
def adminB : DbUser :=
  { id := "a2", name := "Bern", phone := "pb", role := "admin", isActive := true }

/-- A moderator account. -/
def modM : DbUser :=
  { id := "m1", name := "Mona", phone := "pm", role := "moderator", isActive := true }

/-- The users collection for the RBAC instances. -/
def users0 : List DbUser := [adminA, adminB, modM]

/-! Helper lemmas shared by the claim theorems. -/

theorem find?_pred {α : Type} (p : α → Bool) (l : List α) (a : α)
    (h : l.find? p = some a) : p a = true :=
  List.find?_some h

theorem setOrderPath_id (o : OrderDoc) (path v : String) :
    (setOrderPath o path v).id = o.id := by
  unfold setOrderPath
  split_ifs <;> rfl

theorem applyUpdate_id (o : OrderDoc) (upd : List (String × String)) :
    (applyUpdate o upd).id = o.id := by
  induction upd generalizing o with
  | nil => rfl
  | cons p t ih =>
    show (applyUpdate (setOrderPath o p.1 p.2) t).id = o.id
    rw [ih, setOrderPath_id]

theorem findById_updStore (store : OrderStore) (oid : String)
    (upd : List (String × String)) (o : OrderDoc)
    (hfind : findById store oid = some o) :
    findById (updStore store oid upd) oid = some (applyUpdate o upd) := by
  unfold findById at *
  unfold updStore
  induction store with
  | nil => simp at hfind
  | cons a t ih =>
    rw [List.map_cons]
    by_cases ha : (a.id == oid) = true
    · have ha2 : ((applyUpdate a upd).id == oid) = true := by
        rw [applyUpdate_id]; exact ha
      have hhead : (if (a.id == oid) = true then applyUpdate a upd else a)
          = applyUpdate a upd := if_pos ha
      rw [hhead]
      simp only [List.find?, ha] at hfind
      simp only [List.find?, ha2]
      cases hfind
      rfl
    · have ha' : (a.id == oid) = false := by
        simpa using ha
      have hhead : (if (a.id == oid) = true then applyUpdate a upd else a) = a :=
        if_neg (by simp [ha'])
      rw [hhead]
      simp only [List.find?, ha'] at hfind ⊢
      exact ih hfind

theorem updStore_of_fix (store : OrderStore) (oid : String)
    (upd : List (String × String)) (h : ∀ x, applyUpdate x upd = x) :
    updStore store oid upd = store := by
  unfold updStore
  have hmap : ∀ x ∈ store, (if x.id == oid then applyUpdate x upd else x) = x := by
    intro x _
    rw [h x, ite_self]
  rw [List.map_congr_left hmap]
  simp

theorem paymeWebhook_valid_step (hmacHex : String → String → String)
    (sec : String) (body : WebhookPayload) (now : String) (store : OrderStore)
    (hsec : sec ≠ "") (hdig : hmacHex sec (rawOf body) ≠ "")
    (hint : truthyStr body.intentId = true)
    (hord : truthyStr body.orderId = true) :
    paymeWebhook hmacHex (some sec) (some (hmacHex sec (rawOf body))) body now store
      = (.ok, (findByIdAndUpdate store (body.orderId.getD ("")) (paidUpd now)).2) := by
  have h1 : truthyStr (some sec) = true := by
    simp [truthyStr, hsec]
  have h2 : truthyStr (some (hmacHex sec (rawOf body))) = true := by
    simp [truthyStr, hdig]
  unfold paymeWebhook verifySignature timingSafeEqual
  simp [h1, h2, hint, hord]

theorem paymeWebhook_step_store0 (hmacHex : String → String → String)
    (sec now : String) (hsec : sec ≠ "")
    (hdig : hmacHex sec (rawOf payload0) ≠ "") :
    paymeWebhook hmacHex (some sec) (some (hmacHex sec (rawOf payload0)))
      payload0 now store0 = (.ok, storePaid) := by
  rw [paymeWebhook_valid_step hmacHex sec payload0 now store0 hsec hdig
    (by decide) (by decide)]
  rfl

theorem paymeWebhook_step_storePaid (hmacHex : String → String → String)
    (sec now : String) (hsec : sec ≠ "")
    (hdig : hmacHex sec (rawOf payload0) ≠ "") :
    paymeWebhook hmacHex (some sec) (some (hmacHex sec (rawOf payload0)))
      payload0 now storePaid = (.ok, storePaid) := by
  rw [paymeWebhook_valid_step hmacHex sec payload0 now storePaid hsec hdig
    (by decide) (by decide)]
  rfl

theorem replayWebhook_storePaid (hmacHex : String → String → String)
    (sec now : String) (n : Nat) (hsec : sec ≠ "")
    (hdig : hmacHex sec (rawOf payload0) ≠ "") :
    replayWebhook hmacHex (some sec) (some (hmacHex sec (rawOf payload0)))
      payload0 now n storePaid = storePaid := by
  induction n with
  | zero => rfl
  | succ k ih =>
    show replayWebhook hmacHex (some sec) (some (hmacHex sec (rawOf payload0)))
      payload0 now k (paymeWebhook hmacHex (some sec)
        (some (hmacHex sec (rawOf payload0))) payload0 now storePaid).2 = storePaid
    rw [paymeWebhook_step_storePaid hmacHex sec now hsec hdig]
    exact ih

/-- C1 counterexample: `confirmed` IS one of the Order schema's status enum
values and order o1 exists, yet `PATCH /orders/o1/status {status:"confirmed"}`
answers 400 and leaves the collection unchanged - refuting the claim's
acceptance direction (an enum value on an existing order should get 200). -/
theorem c1_counterexample :
    ("confirmed" ∈ orderStatusEnum)
    ∧ findById store0 ("o1") = some order0
    ∧ updateOrderStatus store0 ("o1") (some ("confirmed")) = (400, none, store0) := by
  refine ⟨by decide, by decide, by decide⟩

/-- C1 (amended): `updateOrderStatus` validates against the route's own
hardcoded allowlist `okStatuses`, not the schema enum: a value outside the
allowlist gets 400 with the store unchanged, and an allowlisted value on an
existing order gets 200 and is stored as the order's status unvalidated
(including `processing`, which is outside the schema enum). -/
theorem c1_amended_allowlist (store : OrderStore) (oid s : String) :
    (okStatuses.contains s = false →
      updateOrderStatus store oid (some s) = (400, none, store))
    ∧ (∀ o, okStatuses.contains s = true → findById store oid = some o →
        updateOrderStatus store oid (some s)
          = (200, some (applyUpdate o [("status", s)]),
             updStore store oid [("status", s)])
        ∧ (applyUpdate o [("status", s)]).status = s) := by
  have hred : updateOrderStatus store oid (some s)
      = (if (!okStatuses.contains s) = true then (400, none, store)
         else match findByIdAndUpdate store oid [("status", s)] with
           | (none, _) => (404, none, store)
           | (some o2, store2) => (200, some o2, store2)) := rfl
  constructor
  · intro hno
    rw [hred, hno]
    rfl
  · intro o hyes hfind
    unfold findById at hfind
    constructor
    · have hfu : findByIdAndUpdate store oid [("status", s)]
          = (some (applyUpdate o [("status", s)]),
             updStore store oid [("status", s)]) := by
        unfold findByIdAndUpdate
        rw [hfind]
      rw [hred, hyes, hfu]
      rfl
    · show (setOrderPath o ("status") s).status = s
      rfl

/-- C1 witness: on the one-order collection, the schema-enum value
`ready_for_delivery` is rejected with 400, while the out-of-enum value
`processing` is accepted with 200 and stored. -/
theorem c1_witness :
    updateOrderStatus store0 ("o1") (some ("ready_for_delivery"))
        = (400, none, store0)
    ∧ updateOrderStatus store0 ("o1") (some ("processing"))
        = (200, some (applyUpdate order0 [("status", "processing")]),
           updStore store0 ("o1") [("status", "processing")])
    ∧ (applyUpdate order0 [("status", "processing")]).status = "processing" :=
  ⟨(c1_amended_allowlist store0 ("o1") ("ready_for_delivery")).1 (by decide),
   ((c1_amended_allowlist store0 ("o1") ("processing")).2 order0
     (by decide) (by decide)).1,
   ((c1_amended_allowlist store0 ("o1") ("processing")).2 order0
     (by decide) (by decide)).2⟩

/-- C3 counterexample: a wrong signature of a DIFFERENT length than the hex
digest (here `"00"` against a 64-character digest) does not get a 401
response: `crypto.timingSafeEqual` throws inside the async handler, so no
HTTP response is produced at all (the state is still unchanged). -/
theorem c3_counterexample :
    ("00" ≠ hmacConst ("sec") (rawOf payload0))
    ∧ paymeWebhook hmacConst (some ("sec")) (some ("00")) payload0 ("now") store0
        = (.thrown, store0)
    ∧ WebhookResp.code (paymeWebhook hmacConst (some ("sec")) (some ("00"))
        payload0 ("now") store0).1 = none := by
  refine ⟨by decide, by decide, by decide⟩

/-- C3 (amended): a webhook with an absent (or empty) signature header or
provider secret is rejected 401 with no state change (fail closed), and so is
one whose signature has the SAME length as the expected hex HMAC digest but
differs from it; a wrong-length signature instead makes `timingSafeEqual`
throw (see the counterexample). -/
theorem c3_amended_reject (hmacHex : String → String → String)
    (secret? sig? : Option String) (body : WebhookPayload) (now : String)
    (store : OrderStore) :
    (truthyStr sig? = false ∨ truthyStr secret? = false →
      paymeWebhook hmacHex secret? sig? body now store
        = (.unauthorized ("invalid"), store))
    ∧ (∀ sig sec, sig? = some sig → secret? = some sec → sig ≠ "" → sec ≠ "" →
        sig.length = (hmacHex sec (rawOf body)).length →
        sig ≠ hmacHex sec (rawOf body) →
        paymeWebhook hmacHex secret? sig? body now store
          = (.unauthorized ("invalid"), store)) := by
  constructor
  · intro h
    unfold paymeWebhook verifySignature
    rcases h with h | h <;> simp [h]
  · intro sig sec hs hc hsne hcne hlen hne
    subst hs
    subst hc
    have h1 : truthyStr (some sig) = true := by
      simp [truthyStr, hsne]
    have h2 : truthyStr (some sec) = true := by
      simp [truthyStr, hcne]
    have h3 : ((hmacHex sec (rawOf body)).length == sig.length) = true := by
      simp [hlen]
    have h4 : (hmacHex sec (rawOf body) == sig) = false := by
      simp only [beq_eq_false_iff_ne]
      exact fun h => hne h.symm
    unfold paymeWebhook verifySignature timingSafeEqual
    simp [h1, h2, h3, h4]

/-- C3 witness: a missing signature header gets 401 with no state change, and
so does the same-length wrong signature `wrongSig64`. -/
theorem c3_witness :
    paymeWebhook hmacConst (some ("sec")) none payload0 ("now") store0
        = (.unauthorized ("invalid"), store0)
    ∧ paymeWebhook hmacConst (some ("sec")) (some wrongSig64) payload0 ("now")
        store0 = (.unauthorized ("invalid"), store0) :=
  ⟨(c3_amended_reject hmacConst (some ("sec")) none payload0 ("now") store0).1
     (Or.inl (by decide)),
   (c3_amended_reject hmacConst (some ("sec")) (some wrongSig64) payload0 ("now")
     store0).2 wrongSig64 ("sec") rfl rfl (by decide) (by decide) (by decide)
     (by decide)⟩

/-- C4 counterexample: a structurally valid bearer token referencing account
u1 passes `requireAuth` (it calls `next()` with the decoded payload) even
though in the persistent state u1 is deactivated - and would equally pass if
u1 were deleted (`find?` on the empty collection is `none`): `requireAuth`
never queries the users collection, refuting the claimed 401 re-check. -/
theorem c4_counterexample :
    requireAuth jwtVerify0 (some ("Bearer tok"))
        = .ok { id := "u1", role := "user" }
    ∧ List.find? (fun u => u.id == "u1") [userInactive] = some userInactive
    ∧ userInactive.isActive = false
    ∧ List.find? (fun u => u.id == "u1") ([] : List DbUser) = none := by
  refine ⟨by decide, by decide, by decide, by decide⟩

/-- C4 (amended): `requireAuth` verifies only the token and consults no
persistent state, so a structurally valid token passes even for an inactive
or deleted account; it is the separate `authenticateToken` middleware
(middleware/permissions.ts) that re-checks the referenced account against
the users collection and rejects with 401 whenever it is missing or not
active. -/
theorem c4_amended_recheck (jwtVerify : String → Option JwtClaims)
    (users : List DbUser) (hdr : Option String) (d : JwtClaims)
    (htok : ¬(atokenOf hdr = ""))
    (hd : jwtVerify (atokenOf hdr) = some d)
    (hacc : ∀ u ∈ users, u.id = d.id → u.isActive = false) :
    authenticateToken jwtVerify users hdr = .error 401 := by
  have hred : authenticateToken jwtVerify users hdr
      = match users.find? (fun u => u.id == d.id) with
        | none => .error 401
        | some u =>
          if !u.isActive then .error 401
          else .ok { id := u.id, role := u.role, name := u.name,
                     phone := u.phone } := by
    unfold authenticateToken
    rw [if_neg (by simp [htok]), hd]
  rw [hred]
  cases hfind : users.find? (fun u => u.id == d.id) with
  | none => rfl
  | some u =>
    have hmem := List.mem_of_find?_eq_some hfind
    have hid := find?_pred (fun u : DbUser => u.id == d.id) users u hfind
    have hin : u.isActive = false := hacc u hmem (by simpa using hid)
    simp [hin]

/-- C4 witness: the very token that passes `requireAuth` is rejected 401 by
`authenticateToken` against the collection where u1 is deactivated. -/
theorem c4_witness :
    authenticateToken jwtVerify0 [userInactive] (some ("Bearer tok"))
        = .error 401 :=
  c4_amended_recheck jwtVerify0 [userInactive] (some ("Bearer tok"))
    { id := "u1", role := "user" } (by decide) (by decide) (by decide)

/-- C5: `createOrder` never reaches 201 - with items, totals and address all
present (even the spec's valid Scenario A input) `Order.create` fails schema
validation because the route omits the required `delivery` path, and the
catch-all answers 500 with no order created; only an absent items, totals or
address field yields the claimed 400.  (The qty-below-1 and empty-items cases
of the claim likewise end in this 500, not 400.) -/
theorem c5_createOrder_behavior (store : OrderStore) (newId userId : String)
    (items : List CartItem) (totals : Totals) (address : Address) :
    createOrder store newId userId (some items) (some totals) (some address)
        = (500, none, store)
    ∧ createOrder store newId userId none (some totals) (some address)
        = (400, none, store)
    ∧ createOrder store newId userId (some items) none (some address)
        = (400, none, store)
    ∧ createOrder store newId userId (some items) (some totals) none
        = (400, none, store) := by
  refine ⟨?_, rfl, rfl, rfl⟩
  unfold createOrder validOrderCreate
  simp

/-- C2: replaying a valid-signature, well-formed payme webhook any number of
times never errors, answers 200 `{ok:true}` every time, and is state-
idempotent (the collection after n deliveries equals the collection after
one) - but the settlement NEVER sets `paymentStatus` to `"paid"`: the
`payment.status` path the code writes is not an Order schema path and is
stripped, so `paymentStatus` stays `"pending"` while the delivery `status`
field is overwritten with the out-of-enum literal `"paid"`. -/
theorem c2_webhook_replay (hmacHex : String → String → String) (sec now : String)
    (n : Nat) (hsec : sec ≠ "") (hdig : hmacHex sec (rawOf payload0) ≠ "")
    (hn : 1 ≤ n) :
    (∀ m, (paymeWebhook hmacHex (some sec) (some (hmacHex sec (rawOf payload0)))
        payload0 now (replayWebhook hmacHex (some sec)
          (some (hmacHex sec (rawOf payload0))) payload0 now m store0)).1
      = .ok)
    ∧ replayWebhook hmacHex (some sec) (some (hmacHex sec (rawOf payload0)))
        payload0 now n store0
      = replayWebhook hmacHex (some sec) (some (hmacHex sec (rawOf payload0)))
          payload0 now 1 store0
    ∧ findById (replayWebhook hmacHex (some sec)
        (some (hmacHex sec (rawOf payload0))) payload0 now n store0) ("o1")
      = some orderPaid
    ∧ orderPaid.status = "paid"
    ∧ orderPaid.paymentStatus = "pending" := by
  have hrepl : ∀ m, 1 ≤ m → replayWebhook hmacHex (some sec)
      (some (hmacHex sec (rawOf payload0))) payload0 now m store0 = storePaid := by
    intro m hm
    cases m with
    | zero => omega
    | succ k =>
      show replayWebhook hmacHex (some sec) (some (hmacHex sec (rawOf payload0)))
        payload0 now k (paymeWebhook hmacHex (some sec)
          (some (hmacHex sec (rawOf payload0))) payload0 now store0).2 = storePaid
      rw [paymeWebhook_step_store0 hmacHex sec now hsec hdig]
      exact replayWebhook_storePaid hmacHex sec now k hsec hdig
  refine ⟨?_, ?_, ?_, rfl, rfl⟩
  · intro m
    cases m with
    | zero =>
      show (paymeWebhook hmacHex (some sec) (some (hmacHex sec (rawOf payload0)))
        payload0 now store0).1 = .ok
      rw [paymeWebhook_step_store0 hmacHex sec now hsec hdig]
    | succ k =>
      rw [hrepl (k + 1) (by omega)]
      rw [paymeWebhook_step_storePaid hmacHex sec now hsec hdig]
  · rw [hrepl n hn, hrepl 1 (by omega)]
  · rw [hrepl n hn]
    decide

/-- C2 witness: with the stand-in digest function, three deliveries of the
Scenario C payload leave the collection exactly as one delivery does, every
delivery answers `{ok:true}`, and order o1 ends with `paymentStatus` still
`"pending"`. -/
theorem c2_witness :
    (paymeWebhook hmacConst (some ("sec")) (some (hmacConst ("sec")
        (rawOf payload0))) payload0 ("now") store0).1 = .ok
    ∧ (paymeWebhook hmacConst (some ("sec")) (some (hmacConst ("sec")
        (rawOf payload0))) payload0 ("now") (replayWebhook hmacConst (some ("sec"))
          (some (hmacConst ("sec") (rawOf payload0))) payload0 ("now") 2
          store0)).1 = .ok
    ∧ replayWebhook hmacConst (some ("sec")) (some (hmacConst ("sec")
        (rawOf payload0))) payload0 ("now") 3 store0
      = replayWebhook hmacConst (some ("sec")) (some (hmacConst ("sec")
          (rawOf payload0))) payload0 ("now") 1 store0
    ∧ findById (replayWebhook hmacConst (some ("sec")) (some (hmacConst ("sec")
        (rawOf payload0))) payload0 ("now") 3 store0) ("o1") = some orderPaid
    ∧ orderPaid.paymentStatus = "pending" := by
  obtain ⟨h1, h2, h3, _, h5⟩ := c2_webhook_replay hmacConst ("sec") ("now") 3
    (by decide) (by decide) (by decide)
  exact ⟨h1 0, h1 2, h2, h3, h5⟩

/-- C6: the payment-create endpoint answers 400 with the exact message when
orderId or amount is not truthy (with no state change), and otherwise mints
the fresh intent id (`idempotencyKey()` with no argument is exactly the new
random hex value, different each call) - but it PERSISTS NOTHING: the update
paths `payment.method`, `payment.status`, `payment.intentId` are not Order
schema paths, so mongoose strict mode strips the whole update and the
collection is returned unchanged even on the 200 path. -/
theorem c6_createPayme_behavior (store : OrderStore) (rand clientUrl oid : String)
    (amt : Int) (ho : oid ≠ "") (ha : amt ≠ 0) :
    createPayme store { orderId := none, amount := some amt } rand clientUrl
        = (400, .err ("orderId and amount required"), store)
    ∧ createPayme store { orderId := some oid, amount := none } rand clientUrl
        = (400, .err ("orderId and amount required"), store)
    ∧ idempotencyKey none rand = rand
    ∧ createPayme store { orderId := some oid, amount := some amt } rand clientUrl
        = (200, .intent rand (clientUrl ++ "/payment/success?orderId=" ++ oid
            ++ "&intentId=" ++ rand), store) := by
  have h1 : truthyStr (some oid) = true := by
    simp [truthyStr, ho]
  have h2 : truthyInt (some amt) = true := by
    simp [truthyInt, ha]
  have hstore : (findByIdAndUpdate store oid
      [("payment.method", "payme"), ("payment.status", "pending"),
       ("payment.intentId", idempotencyKey none rand)]).2 = store := by
    unfold findByIdAndUpdate
    cases hc : store.find? (fun o => o.id == oid) with
    | none => rfl
    | some o =>
      show updStore store oid _ = store
      exact updStore_of_fix store oid _ (fun x => rfl)
  refine ⟨rfl, ?_, rfl, ?_⟩
  · have hred : createPayme store { orderId := some oid, amount := none } rand
        clientUrl
        = (if (!truthyStr (some oid) || !truthyInt none) = true
           then (400, .err ("orderId and amount required"), store)
           else (200, .intent (idempotencyKey none rand)
               (clientUrl ++ "/payment/success?orderId=" ++ oid ++ "&intentId="
                 ++ idempotencyKey none rand),
               (findByIdAndUpdate store oid
                 [("payment.method", "payme"), ("payment.status", "pending"),
                  ("payment.intentId", idempotencyKey none rand)]).2)) := rfl
    rw [hred, h1]
    rfl
  · have hred : createPayme store { orderId := some oid, amount := some amt } rand
        clientUrl
        = (if (!truthyStr (some oid) || !truthyInt (some amt)) = true
           then (400, .err ("orderId and amount required"), store)
           else (200, .intent (idempotencyKey none rand)
               (clientUrl ++ "/payment/success?orderId=" ++ oid ++ "&intentId="
                 ++ idempotencyKey none rand),
               (findByIdAndUpdate store oid
                 [("payment.method", "payme"), ("payment.status", "pending"),
                  ("payment.intentId", idempotencyKey none rand)]).2)) := rfl
    rw [hred, h1, h2, hstore]
    rfl

/-- C6 witness: the spec's Scenario B 400 on a missing orderId, the 400 on a
missing amount, the minted intent id being exactly the fresh random hex
value, and the 200 path leaving the one-order collection unchanged. -/
theorem c6_witness :
    createPayme store0 { orderId := none, amount := some 1000 }
        ("aabbccddeeff0011") ("http://localhost:5173")
        = (400, .err ("orderId and amount required"), store0)
    ∧ createPayme store0 { orderId := some ("o1"), amount := none }
        ("aabbccddeeff0011") ("http://localhost:5173")
        = (400, .err ("orderId and amount required"), store0)
    ∧ idempotencyKey none ("aabbccddeeff0011") = "aabbccddeeff0011"
    ∧ createPayme store0 { orderId := some ("o1"), amount := some 1000 }
        ("aabbccddeeff0011") ("http://localhost:5173")
        = (200, .intent ("aabbccddeeff0011")
            ("http://localhost:5173/payment/success?orderId=o1&intentId=aabbccddeeff0011"),
           store0) := by
  obtain ⟨h1, h2, h3, h4⟩ := c6_createPayme_behavior store0 ("aabbccddeeff0011")
    ("http://localhost:5173") ("o1") 1000 (by decide) (by decide)
  exact ⟨h1, h2, h3, h4⟩

/-- C7 counterexample: an authenticated mutation whose body carries
`password: ""` yields exactly one audit entry, but the password field is NOT
replaced by the redaction marker (the `if (sanitized[field])` truthiness
guard skips falsy values), refuting the claim that every field named in the
sensitive list is redacted. -/
theorem c7_counterexample :
    auditLoggerOnJson ("users") (some ("update")) (some auditUser0) ("PUT")
        ("/api/admin/users/u2") (some ("u2"))
        [("name", JsVal.str ("Bob")), ("password", JsVal.str (""))]
        200 none 5 []
      = [{ userId := "u1", userName := "Ann", userRole := "admin",
           action := "update", resource := "users", resourceId := some ("u2"),
           details := {
             method := "PUT", url := "/api/admin/users/u2",
             body := [("name", JsVal.str ("Bob")), ("password", JsVal.str (""))],
             responseTime := 5, statusCode := 200 },
           success := true, errorMessage := none }]
    ∧ ("password" ∈ sensitiveFields) := by
  refine ⟨by decide, by decide⟩

/-- C7 (amended): every authenticated request going through the audit wrapper
that sends one JSON response appends exactly one log entry; its success flag
equals `statusCode < 400` and its recorded body is the sanitized request
body, in which a sensitive-named field is replaced by the redaction marker
exactly when its value is truthy (a falsy-valued sensitive field is kept
as-is, as are all other fields). -/
theorem c7_amended_audit (resource : String) (action? : Option String)
    (u : AuditUser) (method url : String) (paramsId : Option String)
    (body : List (String × JsVal)) (statusCode : Nat) (respMsg : Option String)
    (rt : Int) (log : List AuditEntry) (hid : u.id ≠ "") :
    ∃ e, auditLoggerOnJson resource action? (some u) method url paramsId body
          statusCode respMsg rt log = log ++ [e]
      ∧ e.success = decide (statusCode < 400)
      ∧ e.details.body = sanitizeBody body
      ∧ (∀ k v, (k, v) ∈ body →
          (if sensitiveFields.contains k && v.truthy
           then (k, JsVal.str ("[REDACTED]")) else (k, v)) ∈ e.details.body) := by
  refine ⟨{ userId := u.id, userName := u.name.getD ("Unknown"),
            userRole := u.role.getD ("unknown"),
            action := if truthyStr action? then action?.getD ("")
              else method.toLower,
            resource := resource, resourceId := paramsId,
            details := { method := method, url := url, body := sanitizeBody body,
                         responseTime := rt, statusCode := statusCode },
            success := statusCode < 400,
            errorMessage := if 400 ≤ statusCode
              then some (respMsg.getD ("Unknown error")) else none },
         ?_, rfl, rfl, ?_⟩
  · have hcond : (u.id == "") = false := by
      simp [hid]
    simp only [auditLoggerOnJson]
    rw [hcond]
    rfl
  · intro k v hkv
    show _ ∈ sanitizeBody body
    unfold sanitizeBody
    exact List.mem_map_of_mem (fun kv =>
      if sensitiveFields.contains kv.1 && kv.2.truthy
      then (kv.1, JsVal.str ("[REDACTED]")) else kv) hkv

/-- C7 witness: a failing (422) authenticated mutation with a truthy password
field: one entry is appended, success is false, and the password field of the
recorded body is the redaction marker while the other field is kept. -/
theorem c7_witness :
    ∃ e, auditLoggerOnJson ("users") (some ("update")) (some auditUser0) ("PUT")
          ("/api/admin/users/u2") (some ("u2"))
          [("name", JsVal.str ("Bob")), ("password", JsVal.str ("pw"))]
          422 (some ("oops")) 5 [] = [] ++ [e]
      ∧ e.success = decide ((422 : Nat) < 400)
      ∧ e.details.body
          = sanitizeBody [("name", JsVal.str ("Bob")), ("password", JsVal.str ("pw"))]
      ∧ (∀ k v, (k, v) ∈ [("name", JsVal.str ("Bob")),
            ("password", JsVal.str ("pw"))] →
          (if sensitiveFields.contains k && v.truthy
           then (k, JsVal.str ("[REDACTED]")) else (k, v)) ∈ e.details.body) :=
  c7_amended_audit ("users") (some ("update")) auditUser0 ("PUT")
    ("/api/admin/users/u2") (some ("u2"))
    [("name", JsVal.str ("Bob")), ("password", JsVal.str ("pw"))]
    422 (some ("oops")) 5 [] (by decide)

/-- C8: for an existing order whose status is one of the six delivery stages,
`trackOrder` answers with the timeline whose entries are exactly the stages
up to and including the current one, in the stages' total order, every entry
marked completed; for a cancelled order the timeline is the sole `pending`
entry, so it contains only stages that were actually reached (every order is
created at `pending`). -/
theorem c8_trackOrder_timeline (store : OrderStore) (oid : String) (o : OrderDoc)
    (hfind : findById store oid = some o) :
    (o.status ∈ deliveryStages →
      trackOrder store oid = some (o, buildTimeline o.status, courierView o)
      ∧ (buildTimeline o.status).map TimelineEntry.status
          = deliveryStages.take
              ((deliveryStages.findIdx (fun x => x == o.status)) + 1)
      ∧ (∀ e ∈ buildTimeline o.status, e.completed = true))
    ∧ (o.status = "cancelled" →
      trackOrder store oid = some (o, [⟨"pending", true⟩], courierView o)
      ∧ (∀ reached : List String, "pending" ∈ reached →
          ∀ e ∈ buildTimeline o.status, e.status ∈ reached)) := by
  have htrack : trackOrder store oid
      = some (o, buildTimeline o.status, courierView o) := by
    unfold trackOrder
    rw [hfind]
    rfl
  constructor
  · intro hs
    have hs' : o.status = "pending" ∨ o.status = "confirmed"
        ∨ o.status = "preparing" ∨ o.status = "ready_for_delivery"
        ∨ o.status = "in_transit" ∨ o.status = "delivered" := by
      simpa [deliveryStages] using hs
    refine ⟨htrack, ?_, ?_⟩
    · rcases hs' with h | h | h | h | h | h <;> rw [h] <;> decide
    · rcases hs' with h | h | h | h | h | h <;> rw [h] <;> decide
  · intro hc
    constructor
    · rw [hc] at htrack
      exact htrack
    · intro reached hre e he
      rw [hc] at he
      have he' : e = ⟨"pending", true⟩ := by
        simpa [buildTimeline] using he
      rw [he']
      exact hre

/-- C8 witness: an order at `preparing` yields the completed
pending-confirmed-preparing prefix, and a cancelled order yields only the
pending entry, every entry of which lies in any reached-set containing
pending. -/
theorem c8_witness :
    (trackOrder storePrep ("o1")
        = some (orderPrep, buildTimeline orderPrep.status, courierView orderPrep)
      ∧ (buildTimeline orderPrep.status).map TimelineEntry.status
          = deliveryStages.take
              ((deliveryStages.findIdx (fun x => x == orderPrep.status)) + 1)
      ∧ (∀ e ∈ buildTimeline orderPrep.status, e.completed = true))
    ∧ (trackOrder storeCanc ("o1")
        = some (orderCanc, [⟨"pending", true⟩], courierView orderCanc)
      ∧ (∀ reached : List String, "pending" ∈ reached →
          ∀ e ∈ buildTimeline orderCanc.status, e.status ∈ reached)) :=
  ⟨(c8_trackOrder_timeline storePrep ("o1") orderPrep (by decide)).1 (by decide),
   (c8_trackOrder_timeline storeCanc ("o1") orderCanc (by decide)).2 (by decide)⟩

/-- C9: at the `deleteUser`/`createUser` handlers, self-deletion (the target
account is the caller's own, whose stored role is the caller's role) answers
400 with no deletion regardless of that role; a non-admin caller deleting a
stored admin account gets 403 with no change; and a non-admin caller creating
an account with role admin gets 403 with no change. -/
theorem c9_rbac_protections (users : List DbUser) (caller : JwtClaims)
    (targetId : String) (u : DbUser) :
    (users.find? (fun x => x.id == caller.id) = some u → u.role = caller.role →
      deleteUser users caller caller.id = (400, users))
    ∧ (users.find? (fun x => x.id == targetId) = some u → u.role = "admin" →
        caller.role ≠ "admin" →
        deleteUser users caller targetId = (403, users))
    ∧ (∀ name phone hashed newId, caller.role ≠ "admin" →
        createUser users caller name phone hashed ("admin") newId
          = (403, users)) := by
  refine ⟨?_, ?_, ?_⟩
  · intro hfind hrole
    have hif : deleteUser users caller caller.id
        = (if u.role == "admin" && !(caller.role == "admin") then (403, users)
           else if u.id == caller.id then (400, users)
           else (200, users.filter (fun v => !(v.id == caller.id)))) := by
      unfold deleteUser
      rw [hfind]
    have hid : (u.id == caller.id) = true :=
      find?_pred (fun x : DbUser => x.id == caller.id) users u hfind
    rw [hif]
    by_cases hadm : caller.role = "admin"
    · rw [hrole, hadm]
      simp [hid]
    · have h1 : (u.role == "admin") = false := by
        rw [hrole]
        simp [hadm]
      simp [h1, hid]
  · intro hfind hrole hcaller
    have hif : deleteUser users caller targetId
        = (if u.role == "admin" && !(caller.role == "admin") then (403, users)
           else if u.id == caller.id then (400, users)
           else (200, users.filter (fun v => !(v.id == targetId)))) := by
      unfold deleteUser
      rw [hfind]
    have h1 : (u.role == "admin") = true := by
      rw [hrole]
      simp
    have h2 : (caller.role == "admin") = false := by
      simp [hcaller]
    rw [hif]
    simp [h1, h2]
  · intro name phone hashed newId hcaller
    have h2 : (caller.role == "admin") = false := by
      simp [hcaller]
    unfold createUser
    simp [h2]

/-- C9 witness: admin a1 deleting itself gets 400 with the collection intact;
moderator m1 deleting admin a2 gets 403; moderator m1 creating an admin
account gets 403. -/
theorem c9_witness :
    deleteUser users0 { id := "a1", role := "admin" } ("a1") = (400, users0)
    ∧ deleteUser users0 { id := "m1", role := "moderator" } ("a2") = (403, users0)
    ∧ createUser users0 { id := "m1", role := "moderator" } ("Eve") ("pe") ("h")
        ("admin") ("u9") = (403, users0) :=
  ⟨(c9_rbac_protections users0 { id := "a1", role := "admin" } ("a1") adminA).1
     (by decide) (by decide),
   (c9_rbac_protections users0 { id := "m1", role := "moderator" } ("a2")
     adminB).2.1 (by decide) (by decide) (by decide),
   (c9_rbac_protections users0 { id := "m1", role := "moderator" } ("x")
     adminB).2.2 ("Eve") ("pe") ("h") ("u9") (by decide)⟩

/-- C10: settling an existing order through a valid-signature, well-formed
webhook answers `{ok:true}` and persists `status = "paid"` - a literal
outside the seven declared enum values (the update runs without validators) -
and `trackOrder` on the settled order therefore returns a timeline holding
only the `pending` entry. -/
theorem c10_paid_status_projection (hmacHex : String → String → String)
    (sec now oid : String) (body : WebhookPayload) (store : OrderStore)
    (o : OrderDoc) (hsec : sec ≠ "") (hdig : hmacHex sec (rawOf body) ≠ "")
    (hint : truthyStr body.intentId = true) (hord : body.orderId = some oid)
    (hoid : oid ≠ "") (hfind : findById store oid = some o) :
    (paymeWebhook hmacHex (some sec) (some (hmacHex sec (rawOf body))) body now
        store).1 = .ok
    ∧ findById (paymeWebhook hmacHex (some sec) (some (hmacHex sec (rawOf body)))
        body now store).2 oid = some { o with status := "paid" }
    ∧ "paid" ∉ orderStatusEnum
    ∧ trackOrder (paymeWebhook hmacHex (some sec)
        (some (hmacHex sec (rawOf body))) body now store).2 oid
      = some ({ o with status := "paid" }, [⟨"pending", true⟩],
              courierView { o with status := "paid" }) := by
  have hordt : truthyStr body.orderId = true := by
    rw [hord]
    simp [truthyStr, hoid]
  have hstep := paymeWebhook_valid_step hmacHex sec body now store hsec hdig
    hint hordt
  have hgd : body.orderId.getD ("") = oid := by
    rw [hord]
    rfl
  rw [hgd] at hstep
  have hfu : findByIdAndUpdate store oid (paidUpd now)
      = (some (applyUpdate o (paidUpd now)), updStore store oid (paidUpd now)) := by
    unfold findByIdAndUpdate
    unfold findById at hfind
    rw [hfind]
  have happ : applyUpdate o (paidUpd now) = { o with status := "paid" } := rfl
  have hfid : findById (updStore store oid (paidUpd now)) oid
      = some { o with status := "paid" } := by
    rw [← happ]
    exact findById_updStore store oid (paidUpd now) o hfind
  have hstore2 : (paymeWebhook hmacHex (some sec) (some (hmacHex sec (rawOf body)))
      body now store).2 = updStore store oid (paidUpd now) := by
    rw [hstep, hfu]
  refine ⟨?_, ?_, by decide, ?_⟩
  · rw [hstep]
  · rw [hstore2]
    exact hfid
  · rw [hstore2]
    unfold trackOrder
    rw [hfid]
    rfl

/-- C10 witness: settling order o1 of the one-order collection with the
stand-in digest function stores the out-of-enum `"paid"` status and tracking
then shows only the pending entry. -/
theorem c10_witness :
    (paymeWebhook hmacConst (some ("sec")) (some (hmacConst ("sec")
        (rawOf payload0))) payload0 ("now") store0).1 = .ok
    ∧ findById (paymeWebhook hmacConst (some ("sec")) (some (hmacConst ("sec")
        (rawOf payload0))) payload0 ("now") store0).2 ("o1")
      = some { order0 with status := "paid" }
    ∧ "paid" ∉ orderStatusEnum
    ∧ trackOrder (paymeWebhook hmacConst (some ("sec")) (some (hmacConst ("sec")
        (rawOf payload0))) payload0 ("now") store0).2 ("o1")
      = some ({ order0 with status := "paid" }, [⟨"pending", true⟩],
              courierView { order0 with status := "paid" }) :=
  c10_paid_status_projection hmacConst ("sec") ("now") ("o1") payload0 store0
    order0 (by decide) (by decide) (by decide) rfl (by decide) (by decide)
